import Mathlib

/-
Verification of the DayZ server manager (dayz_server_manager.py).

The Python script is shallowly embedded: every function of the source that
the properties below touch is translated into a Lean definition of the same
name (file reads become explicit line lists, the filesystem becomes an
explicit record, raised exceptions become Except.error values carrying the
raised message). Python integers are modelled as Int, Python strings as
String, with the handful of Python string primitives the script uses
(str.strip, str.find, str.split, int conversion) reimplemented character by
character as pyStrip, pyFindIdx, pySplit and pyInt.
-/

namespace DayZ

/-- Python str.find for a single character: index of the first occurrence. -/
def pyFindIdx : List Char → Char → Option Nat
  | [], _ => none
  | a :: rest, c => if a = c then some 0 else (pyFindIdx rest c).map (· + 1)

/-- Python str.strip with no argument: drop whitespace from both ends. -/
def pyStrip (s : String) : String :=
  String.mk (((s.data.dropWhile Char.isWhitespace).reverse.dropWhile Char.isWhitespace).reverse)

/-- Python value.strip with a quote argument: drop double quotes from both ends. -/
def pyStripQuotes (s : String) : String :=
  String.mk (((s.data.dropWhile (· = '"')).reverse.dropWhile (· = '"')).reverse)

/-- Python str.split on a one-character separator: no collapsing, keeps empty fields. -/
def splitChar : List Char → Char → List (List Char)
  | [], _ => [[]]
  | a :: rest, sep =>
    match splitChar rest sep with
    | [] => [[a]]
    | h :: t => if a = sep then [] :: h :: t else (a :: h) :: t

def pySplit (s : String) (sep : Char) : List String :=
  (splitChar s.data sep).map String.mk

/-- Decimal digits to a number; none when empty or a non-digit appears. -/
def digitsToNat (cs : List Char) : Option Nat :=
  if cs = [] then none
  else if cs.all Char.isDigit then
    some (cs.foldl (fun a c => a * 10 + (c.toNat - '0'.toNat)) 0)
  else none

/-- Python int(str) on an already-stripped string: optional sign then digits. -/
def pyInt (s : String) : Option Int :=
  match s.data with
  | '+' :: rest => (digitsToNat rest).map Int.ofNat
  | '-' :: rest => (digitsToNat rest).map (fun n => -(n : Int))
  | cs => (digitsToNat cs).map Int.ofNat

/-- Python rendering of an optional string into an f-string (None prints as "None"). -/
def pyStr : Option String → String
  | none => "None"
  | some s => s

/-- Python rendering of an optional int into an f-string. -/
def pyOptIntStr : Option Int → String
  | none => "None"
  | some i => toString i

/-- remove_comments from the source: everything from the first hash on is cut;
a line with no hash at all falls off the end of the Python function, which
therefore returns None for it. -/
def remove_comments (line : String) : Option String :=
  match pyFindIdx line.data '#' with
  | none => none
  | some 0 => some ""
  | some i => some (String.mk (line.data.take i))

/-- try_cast_str_to_int from the source. -/
def try_cast_str_to_int (value : String) : Option Int := pyInt value

/-- The five module-level configuration variables of the source. -/
structure ConfigVars where
  steamcmd_dir : Option String
  install_dir : Option String
  server_app_id : Option Int
  game_app_id : Option Int
  username : Option String
deriving DecidableEq

/-- The module-level values: all five variables are initialised to None and,
because every assignment in load_manager_config binds a function-local name
(the function has no global declaration), they are never reassigned anywhere
in the program. -/
def initialGlobals : ConfigVars :=
  { steamcmd_dir := none, install_dir := none, server_app_id := none
    game_app_id := none, username := none }

/-- check_global_vars from the source: deterministic check order. -/
def check_global_vars (v : ConfigVars) : Except String Unit :=
  if v.steamcmd_dir = none then
    Except.error "The \x27steamcmd_dir\x27 configuration variable is not set."
  else if v.install_dir = none then
    Except.error "The \x27install_dir\x27 configuration variable is not set."
  else if v.server_app_id = none then
    Except.error "The \x27server_app_id\x27 configuration variable is not set or is not a valid integer."
  else if v.game_app_id = none then
    Except.error "The \x27game_app_id\x27 configuration variable is not set or is not a valid integer."
  else if v.username = none then
    Except.error "The \x27username\x27 configuration variable is not set."
  else Except.ok ()

/-- The recognised-key if-chain of load_manager_config, acting on the record of
function-local variables. -/
def assign_config (v : ConfigVars) (key value : String) : ConfigVars :=
  if key = "steamcmd_dir" then { v with steamcmd_dir := some value }
  else if key = "install_dir" then { v with install_dir := some value }
  else if key = "server_app_id" then { v with server_app_id := try_cast_str_to_int value }
  else if key = "game_app_id" then { v with game_app_id := try_cast_str_to_int value }
  else if key = "username" then { v with username := some value }
  else v

/-- One iteration of the line loop of load_manager_config: strip, cut the
comment, skip falsy lines (None or empty), unpack the single key = value pair
(a ValueError when the split does not yield exactly two fields), strip the key,
strip and unquote the value, run the if-chain. -/
def process_config_line (v : ConfigVars) (line : String) : Except String ConfigVars :=
  match remove_comments (pyStrip line) with
  | none => Except.ok v
  | some s2 =>
    if s2 = "" then Except.ok v
    else
      match pySplit s2 '=' with
      | [k, val] => Except.ok (assign_config v (pyStrip k) (pyStripQuotes (pyStrip val)))
      | _ => Except.error ("ValueError: cannot unpack key = value pair from line: " ++ s2)

/-- The whole line loop of load_manager_config over the file's lines. -/
def load_config_lines : List String → ConfigVars → Except String ConfigVars
  | [], v => Except.ok v
  | l :: rest, v =>
    match process_config_line v l with
    | Except.error e => Except.error e
    | Except.ok v2 => load_config_lines rest v2

/-- load_manager_config from the source. The loop assigns only function-local
names (Python scoping: no global declaration), so its result is discarded and
check_global_vars runs on the untouched module-level variables. -/
def load_manager_config (lines : List String) : Except String Unit :=
  match load_config_lines lines initialGlobals with
  | Except.error e => Except.error e
  | Except.ok _ => check_global_vars initialGlobals

/-- The five-line manager config of the spec scenario in section 8. -/
def scenarioConfigLines : List String :=
  ["steamcmd_dir = \"C:/tools\"",
   "install_dir = \"C:/server\"",
   "server_app_id = 223350",
   "game_app_id = 221100",
   "username = \"bob\""]

/-- Claim C1 (code_bug evaluation): on the exact five-line scenario config the
load operation does not succeed; every line is skipped (remove_comments
returns None for a hash-free line) and even the lines that were processed
would only bind locals, so the completeness check raises the first missing
field error. -/
theorem config_scenario_rejected :
    load_manager_config scenarioConfigLines =
      Except.error "The \x27steamcmd_dir\x27 configuration variable is not set." := by
  rfl

/-- Claim C10: for every input, load_manager_config fails; and whenever the
line loop itself finishes without a ValueError, the failure is exactly the
first completeness check (the tool-directory field), because the loop's
assignments bound function-local names and the module-level variables stayed
None. -/
theorem load_manager_config_always_fails :
    ∀ lines : List String,
      (∃ e, load_manager_config lines = Except.error e) ∧
      ((load_config_lines lines initialGlobals).isOk = true →
        load_manager_config lines =
          Except.error "The \x27steamcmd_dir\x27 configuration variable is not set.") := by
  intro lines
  rcases h : load_config_lines lines initialGlobals with e | v
  · refine ⟨⟨e, ?_⟩, fun hk => ?_⟩
    · simp [load_manager_config, h]
    · simp [h, Except.isOk, Except.toBool] at hk
  · refine ⟨⟨"The \x27steamcmd_dir\x27 configuration variable is not set.", ?_⟩, fun _ => ?_⟩ <;>
      (simp only [load_manager_config, h]; rfl)

/-- Witness for C10 at the empty file: the line loop succeeds and the load
fails with the tool-directory error. -/
theorem load_manager_config_always_fails_witness :
    load_manager_config [] =
      Except.error "The \x27steamcmd_dir\x27 configuration variable is not set." :=
  (load_manager_config_always_fails []).2 (by rfl)

/-- is_valid_file_name's character class: the regex set a-z A-Z 0-9 _ - . space. -/
def is_valid_name_char (c : Char) : Bool :=
  (decide ('a' ≤ c) && decide (c ≤ 'z')) || (decide ('A' ≤ c) && decide (c ≤ 'Z')) ||
  (decide ('0' ≤ c) && decide (c ≤ '9')) || c == '_' || c == '-' || c == '.' || c == ' '

/-- is_valid_file_name from the source: the regex demands one or more characters
of the class, anchored at both ends. -/
def is_valid_file_name (name : String) : Bool :=
  !name.data.isEmpty && name.data.all is_valid_name_char

/-- Python dict insertion for data, with insertion order preserved and a later
duplicate key overwriting the earlier value in place. -/
def dictInsert (d : List (Int × String)) (k : Int) (v : String) : List (Int × String) :=
  if d.any (fun p => p.1 == k) then d.map (fun p => if p.1 == k then (k, v) else p)
  else d ++ [(k, v)]

/-- One iteration of the line loop of parse_modslist: strip, cut the comment,
skip falsy lines, split on the comma (exactly two fields or a line-format
error), parse the stripped first field as the workshop ID, validate the
stripped second field as a file name, insert. -/
def parse_mods_line (d : List (Int × String)) (line : String) :
    Except String (List (Int × String)) :=
  match remove_comments (pyStrip line) with
  | none => Except.ok d
  | some s2 =>
    if s2 = "" then Except.ok d
    else
      match pySplit s2 ',' with
      | [e0, e1] =>
        (match pyInt (pyStrip e0) with
         | none => Except.error ("Invalid workshop ID: " ++ pyStrip e0)
         | some k =>
           if is_valid_file_name (pyStrip e1) then Except.ok (dictInsert d k (pyStrip e1))
           else Except.error ("Invalid mod name: " ++ pyStrip e1 ++ ", must be a valid file name."))
      | _ => Except.error ("Invalid line format: " ++ s2)

/-- The whole line loop of parse_modslist over the file's lines. -/
def parse_mods_lines : List String → List (Int × String) → Except String (List (Int × String))
  | [], d => Except.ok d
  | l :: rest, d =>
    match parse_mods_line d l with
    | Except.error e => Except.error e
    | Except.ok d2 => parse_mods_lines rest d2

/-- parse_modslist from the source, on the lines of an existing file. -/
def parse_modslist (lines : List String) : Except String (List (Int × String)) :=
  parse_mods_lines lines []

/-- Claim C2 (code_bug evaluation): the well-formed line of the repository's
own modslist template example, written without any trailing hash comment, is
silently skipped instead of contributing its entry: remove_comments returns
None for a hash-free line and the loop treats None as a blank line. -/
theorem modslist_plain_line_skipped :
    parse_modslist ["2950280649, DayZ-Rat"] = Except.ok [] := by rfl

/-- A hash-free character list has no hash to find. -/
theorem pyFindIdx_eq_none_iff (cs : List Char) (c : Char) :
    pyFindIdx cs c = none ↔ c ∉ cs := by
  induction cs with
  | nil => simp [pyFindIdx]
  | cons a rest ih =>
    by_cases h : a = c
    · simp [pyFindIdx, h]
    · have hca : ¬(c = a) := fun hc => h hc.symm
      rw [pyFindIdx, if_neg h, Option.map_eq_none', ih]
      simp [List.mem_cons, hca]

/-- remove_comments returns None on every line with no hash character. -/
theorem remove_comments_eq_none (l : String) (h : '#' ∉ l.data) :
    remove_comments l = none := by
  unfold remove_comments
  rw [(pyFindIdx_eq_none_iff l.data '#').2 h]

/-- Membership survives dropWhile. -/
theorem mem_of_mem_dropWhile {p : Char → Bool} :
    ∀ {l : List Char} {x : Char}, x ∈ l.dropWhile p → x ∈ l := by
  intro l
  induction l with
  | nil => intro x h; simp at h
  | cons a t ih =>
    intro x h
    rw [List.dropWhile_cons] at h
    by_cases hp : p a = true
    · rw [if_pos hp] at h
      exact List.mem_cons_of_mem a (ih h)
    · rw [if_neg hp] at h
      exact h

/-- Membership survives the two-sided strip. -/
theorem mem_pyStrip {c : Char} {s : String} (h : c ∈ (pyStrip s).data) : c ∈ s.data := by
  have h1 : c ∈ ((s.data.dropWhile Char.isWhitespace).reverse.dropWhile
      Char.isWhitespace).reverse := h
  rw [List.mem_reverse] at h1
  have h2 := mem_of_mem_dropWhile h1
  rw [List.mem_reverse] at h2
  exact mem_of_mem_dropWhile h2

/-- The config loop leaves its state untouched on a hash-free line. -/
theorem config_line_skip (v : ConfigVars) (l : String) (h : '#' ∉ l.data) :
    process_config_line v l = Except.ok v := by
  unfold process_config_line
  rw [remove_comments_eq_none (pyStrip l) (fun hc => h (mem_pyStrip hc))]

/-- The mods loop leaves its state untouched on a hash-free line. -/
theorem mods_line_skip (d : List (Int × String)) (l : String) (h : '#' ∉ l.data) :
    parse_mods_line d l = Except.ok d := by
  unfold parse_mods_line
  rw [remove_comments_eq_none (pyStrip l) (fun hc => h (mem_pyStrip hc))]

/-- Dropping the hash-free lines does not change the config loop. -/
theorem load_config_lines_filter_hash :
    ∀ (lines : List String) (v : ConfigVars),
      load_config_lines lines v =
        load_config_lines (lines.filter (fun l => (pyFindIdx l.data '#').isSome)) v := by
  intro lines
  induction lines with
  | nil => intro v; rfl
  | cons l rest ih =>
    intro v
    rw [List.filter_cons]
    by_cases h : (pyFindIdx l.data '#').isSome = true
    · rw [if_pos h]
      simp only [load_config_lines]
      rcases hp : process_config_line v l with e | v2
      · rfl
      · exact ih v2
    · have h0 : pyFindIdx l.data '#' = none := by
        rcases hfi : pyFindIdx l.data '#' with _ | i
        · rfl
        · rw [hfi] at h; simp at h
      have hmem : '#' ∉ l.data := (pyFindIdx_eq_none_iff l.data '#').1 h0
      rw [if_neg h]
      simp only [load_config_lines, config_line_skip v l hmem]
      exact ih v

/-- Dropping the hash-free lines does not change the mods loop. -/
theorem parse_mods_lines_filter_hash :
    ∀ (lines : List String) (d : List (Int × String)),
      parse_mods_lines lines d =
        parse_mods_lines (lines.filter (fun l => (pyFindIdx l.data '#').isSome)) d := by
  intro lines
  induction lines with
  | nil => intro d; rfl
  | cons l rest ih =>
    intro d
    rw [List.filter_cons]
    by_cases h : (pyFindIdx l.data '#').isSome = true
    · rw [if_pos h]
      simp only [parse_mods_lines]
      rcases hp : parse_mods_line d l with e | d2
      · rfl
      · exact ih d2
    · have h0 : pyFindIdx l.data '#' = none := by
        rcases hfi : pyFindIdx l.data '#' with _ | i
        · rfl
        · rw [hfi] at h; simp at h
      have hmem : '#' ∉ l.data := (pyFindIdx_eq_none_iff l.data '#').1 h0
      rw [if_neg h]
      simp only [parse_mods_lines, mods_line_skip d l hmem]
      exact ih d

/-- Claim C9: remove_comments yields None on every hash-free line, and in
consequence both the config loader and the mod-list parser ignore every line
with no hash character: filtering the input down to the lines that do contain
a hash changes neither result. -/
theorem only_hash_lines_contribute :
    (∀ l : String, '#' ∉ l.data → remove_comments l = none) ∧
    (∀ lines : List String,
      load_manager_config lines =
        load_manager_config (lines.filter (fun l => (pyFindIdx l.data '#').isSome))) ∧
    (∀ lines : List String,
      parse_modslist lines =
        parse_modslist (lines.filter (fun l => (pyFindIdx l.data '#').isSome))) := by
  refine ⟨fun l h => remove_comments_eq_none l h, fun lines => ?_, fun lines => ?_⟩
  · unfold load_manager_config
    rw [load_config_lines_filter_hash lines initialGlobals]
  · unfold parse_modslist
    exact parse_mods_lines_filter_hash lines []

/-- Witness for C9: a concrete hash-free mod line is mapped to None. -/
theorem only_hash_lines_contribute_witness :
    remove_comments "1559212036, CF" = none :=
  only_hash_lines_contribute.1 "1559212036, CF" (by decide)

/-- The filesystem state the installer mutates: regular files with their
contents, directories, and symbolic links with their targets, each keyed by
the exact path string the Python code computes. -/
structure FS where
  files : List (String × String)
  dirs : List String
  links : List (String × String)
deriving DecidableEq

/-- os.path.exists: the path names an entry of any kind. -/
def FS.pathExists (fs : FS) (p : String) : Bool :=
  fs.files.any (fun q => q.1 == p) || fs.dirs.any (fun d => d == p) ||
  fs.links.any (fun q => q.1 == p)

/-- Contents of the regular file at a path, if any. -/
def FS.lookupFile (fs : FS) (p : String) : Option String :=
  match fs.files.find? (fun q => q.1 == p) with
  | some q => some q.2
  | none => none

/-- Writing a file (open for write): the new binding shadows any earlier one. -/
def FS.writeFile (fs : FS) (p c : String) : FS :=
  { fs with files := (p, c) :: fs.files }

/-- os.path.dirname: the path up to the last slash. -/
def dirname (p : String) : String :=
  String.mk ((p.data.reverse.dropWhile (fun c => !(c == '/'))).drop 1).reverse

/-- All slash-boundary ancestors of a directory path, the path itself included. -/
def ancestorDirs (p : String) : List String :=
  if p = "" then []
  else
    (List.range (pySplit p '/').length).map
      (fun i => String.intercalate "/" ((pySplit p '/').take (i + 1)))

/-- os.makedirs with exist_ok: the directory and its ancestors all exist after. -/
def makedirs (fs : FS) (d : String) : FS :=
  { fs with dirs := ancestorDirs d ++ fs.dirs }

/-- os.symlink: raises FileExistsError when anything already sits at the link
path; otherwise records the link. -/
def os_symlink (target link : String) (fs : FS) : Except String FS :=
  if fs.pathExists link then
    Except.error ("FileExistsError: [Errno 17] File exists: " ++ link)
  else Except.ok { fs with links := (link, target) :: fs.links }

/-- Whether a file path lies strictly below a directory path (the directory
followed by a slash is a leading piece of the file path). -/
def hasPrefixChars : List Char → List Char → Bool
  | [], _ => true
  | _ :: _, [] => false
  | a :: as, b :: bs => a == b && hasPrefixChars as bs

def underDir (dir p : String) : Bool :=
  hasPrefixChars (dir ++ "/").data p.data

/-- os.path.relpath of a file strictly below a directory: the remainder after
the directory and its slash. -/
def relAfter (dir p : String) : String :=
  String.mk (p.data.drop (dir.data.length + 1))

/-- The body of quick_copy_recursive for one walked source file: compute the
destination path (the destination directory joined with the relative path),
and only when nothing exists there yet, make the parent directories and copy
the file contents across. -/
def copy_step (src dst : String) (acc : FS) (pc : String × String) : FS :=
  if acc.pathExists (dst ++ "/" ++ relAfter src pc.1) then acc
  else
    (makedirs acc (dirname (dst ++ "/" ++ relAfter src pc.1))).writeFile
      (dst ++ "/" ++ relAfter src pc.1) pc.2

/-- quick_copy_recursive from the source: walk every file below the source
directory and copy each one whose destination path does not exist yet. -/
def quick_copy_recursive (src dst : String) (fs : FS) : FS :=
  (fs.files.filter (fun pc => underDir src pc.1)).foldl (copy_step src dst) fs

/-- The rendered values of the three module-level variables install_mods and
run_server interpolate into path strings. In every actual run of the script
all of them hold None (load_manager_config never assigns the module level,
see load_manager_config above), which Python renders as the string None. -/
structure RunConfig where
  steamcmd_dir : String
  install_dir : String
  game_app_id : String
deriving DecidableEq

def globalsRunConfig : RunConfig :=
  { steamcmd_dir := pyStr initialGlobals.steamcmd_dir
    install_dir := pyStr initialGlobals.install_dir
    game_app_id := pyOptIntStr initialGlobals.game_app_id }

/-- The workshop cache root string install_mods computes (note the trailing
slash it carries, which doubles in every item path). -/
def workshop_dir (c : RunConfig) : String :=
  c.steamcmd_dir ++ "/steamapps/workshop/content/" ++ c.game_app_id ++ "/"

/-- The externally fetched source directory string for one workshop item. -/
def item_dir (c : RunConfig) (workshop_id : Int) : String :=
  workshop_dir c ++ "/" ++ toString workshop_id

/-- One iteration of the install loop: skip the entry when its source
directory does not exist; otherwise symlink the server-visible name to it
(unguarded, so an existing path raises), then propagate any keys
subdirectory into the server keys directory. -/
def install_mods_step (c : RunConfig) (fs : FS) (e : Int × String) : Except String FS :=
  if fs.pathExists (item_dir c e.1) = false then Except.ok fs
  else
    match os_symlink (item_dir c e.1) (c.install_dir ++ "/@" ++ e.2) fs with
    | Except.error err => Except.error err
    | Except.ok fs1 =>
      if fs1.pathExists (item_dir c e.1 ++ "/keys") then
        Except.ok (quick_copy_recursive (item_dir c e.1 ++ "/keys")
          (c.install_dir ++ "/keys") fs1)
      else Except.ok fs1

/-- install_mods from the source: the loop over the mapping's entries in
iteration order, aborting on the first raised error. -/
def install_mods (c : RunConfig) : List (Int × String) → FS → Except String FS
  | [], fs => Except.ok fs
  | e :: rest, fs =>
    match install_mods_step c fs e with
    | Except.error err => Except.error err
    | Except.ok fs2 => install_mods c rest fs2

/-- An entry whose source directory is absent contributes nothing: the loop
continues on the rest with the filesystem untouched. -/
theorem install_mods_cons_skip (c : RunConfig) (id : Int) (nm : String)
    (rest : List (Int × String)) (fs : FS)
    (h : fs.pathExists (item_dir c id) = false) :
    install_mods c ((id, nm) :: rest) fs = install_mods c rest fs := by
  simp [install_mods, install_mods_step, h]

/-- When no entry's source directory exists, the whole pass is a no-op. -/
theorem install_mods_noop (c : RunConfig) :
    ∀ (ml : List (Int × String)) (fs : FS),
      (∀ e ∈ ml, fs.pathExists (item_dir c e.1) = false) →
      install_mods c ml fs = Except.ok fs := by
  intro ml
  induction ml with
  | nil => intro fs _; rfl
  | cons e rest ih =>
    intro fs h
    rw [install_mods_cons_skip c e.1 e.2 rest fs (h e (List.mem_cons_self e rest))]
    exact ih fs (fun x hx => h x (List.mem_cons_of_mem e hx))

/-- Claim C6: for an entry whose computed source directory is absent from the
filesystem, install_mods creates nothing, raises nothing, and proceeds to the
remaining entries on an unchanged filesystem. -/
theorem install_mods_skips_missing_source (c : RunConfig) (id : Int) (nm : String)
    (rest : List (Int × String)) (fs : FS)
    (h : fs.pathExists (item_dir c id) = false) :
    install_mods c ((id, nm) :: rest) fs = install_mods c rest fs :=
  install_mods_cons_skip c id nm rest fs h

/-- A concrete configuration for the closed instances below. -/
def cexRunConfig : RunConfig :=
  { steamcmd_dir := "C:/tools", install_dir := "C:/server", game_app_id := "221100" }

/-- The empty filesystem. -/
def emptyFS : FS := { files := [], dirs := [], links := [] }

/-- Witness for C6: on an empty filesystem the entry for item 123 is skipped
and the one-entry pass returns the filesystem unchanged. -/
theorem install_mods_skips_missing_source_witness :
    install_mods cexRunConfig [((123 : Int), "Rat")] emptyFS = Except.ok emptyFS := by
  rw [install_mods_skips_missing_source cexRunConfig 123 "Rat" [] emptyFS (by rfl)]
  rfl

/-- One copy step can only add entries, never remove them. -/
theorem copy_step_pathExists_mono (src dst : String) (acc : FS) (pc : String × String)
    (p : String) (h : acc.pathExists p = true) :
    (copy_step src dst acc pc).pathExists p = true := by
  unfold copy_step
  split
  · exact h
  · simp only [FS.pathExists, FS.writeFile, makedirs, List.any_cons, List.any_append,
      Bool.or_eq_true] at h ⊢
    tauto

/-- One copy step never touches the contents of an already existing path. -/
theorem copy_step_lookup (src dst : String) (acc : FS) (pc : String × String)
    (p : String) (h : acc.pathExists p = true) :
    (copy_step src dst acc pc).lookupFile p = acc.lookupFile p := by
  unfold copy_step
  split
  · rfl
  · rename_i hd
    have hne : (dst ++ "/" ++ relAfter src pc.1) ≠ p := by
      intro he
      rw [he] at hd
      exact hd h
    have hbeq : ((dst ++ "/" ++ relAfter src pc.1) == p) = false := by simp [hne]
    simp [FS.lookupFile, FS.writeFile, makedirs, List.find?, hbeq]

/-- The whole copy fold keeps every pre-existing path and its file contents. -/
theorem copy_fold_preserves (src dst : String) :
    ∀ (l : List (String × String)) (acc : FS) (p : String),
      acc.pathExists p = true →
      ((l.foldl (copy_step src dst) acc).pathExists p = true ∧
        (l.foldl (copy_step src dst) acc).lookupFile p = acc.lookupFile p) := by
  intro l
  induction l with
  | nil => intro acc p h; exact ⟨h, rfl⟩
  | cons a t ih =>
    intro acc p h
    rw [List.foldl_cons]
    have h1 := copy_step_pathExists_mono src dst acc a p h
    obtain ⟨hA, hB⟩ := ih (copy_step src dst acc a) p h1
    exact ⟨hA, hB.trans (copy_step_lookup src dst acc a p h)⟩

/-- Claim C7: quick_copy_recursive never overwrites an existing destination
entry: every path that exists before the copy keeps exactly its previous file
contents; only absent destination paths can receive copies. -/
theorem quick_copy_preserves_existing (src dst : String) (fs : FS) (p : String)
    (h : fs.pathExists p = true) :
    (quick_copy_recursive src dst fs).lookupFile p = fs.lookupFile p :=
  (copy_fold_preserves src dst (fs.files.filter (fun pc => underDir src pc.1)) fs p h).2

/-- A source tree carrying a key file whose destination already exists with
different contents. -/
def keysFS : FS :=
  { files := [("src/keys/A.bikey", "new"), ("dst/keys/A.bikey", "old")]
    dirs := [], links := [] }

/-- Witness for C7: the pre-existing destination key file keeps its old
contents across the copy. -/
theorem quick_copy_preserves_existing_witness :
    (quick_copy_recursive "src/keys" "dst/keys" keysFS).lookupFile "dst/keys/A.bikey" =
        keysFS.lookupFile "dst/keys/A.bikey" ∧
      keysFS.lookupFile "dst/keys/A.bikey" = some "old" :=
  ⟨quick_copy_preserves_existing "src/keys" "dst/keys" keysFS "dst/keys/A.bikey" (by rfl),
    by rfl⟩

/-- The filesystem before the first install pass: the fetched source directory
for item 123 exists (at the exact double-slash path string the code computes),
nothing is installed yet. -/
def cexFS0 : FS := { files := [], dirs := [item_dir cexRunConfig 123], links := [] }

/-- The filesystem after the first install pass: the symlink for item 123 has
been created. -/
def cexFS1 : FS :=
  { files := [], dirs := [item_dir cexRunConfig 123]
    links := [("C:/server/@Rat", item_dir cexRunConfig 123)] }

/-- Claim C3 (counterexample): with one fetched mod present, the first pass of
install_mods succeeds and creates the symlink, and the second pass over the
unchanged source tree raises FileExistsError on the very same symlink
creation, so running twice is not error-free. -/
theorem install_mods_second_run_errors :
    install_mods cexRunConfig [((123 : Int), "Rat")] cexFS0 = Except.ok cexFS1 ∧
    install_mods cexRunConfig [((123 : Int), "Rat")] cexFS1 =
      Except.error "FileExistsError: [Errno 17] File exists: C:/server/@Rat" := by
  exact ⟨rfl, rfl⟩

/-- Claim C3 (amended): install_mods is idempotent and error-free on a second
run only in the degenerate case in which no entry's computed source directory
exists, so that the pass installs nothing; then a run is the identity and the
second run succeeds with the same end state. -/
theorem install_mods_idempotent_when_no_sources :
    ∀ (c : RunConfig) (ml : List (Int × String)) (fs fs2 : FS),
      (∀ e ∈ ml, fs.pathExists (item_dir c e.1) = false) →
      install_mods c ml fs = Except.ok fs2 →
      fs2 = fs ∧ install_mods c ml fs2 = Except.ok fs2 := by
  intro c ml fs fs2 h hrun
  have hno := install_mods_noop c ml fs h
  rw [hno] at hrun
  injection hrun with heq
  subst heq
  exact ⟨rfl, hno⟩

/-- Witness for C3 (amended) at one entry whose source is absent on the empty
filesystem. -/
theorem install_mods_idempotent_when_no_sources_witness :
    emptyFS = emptyFS ∧
      install_mods cexRunConfig [((123 : Int), "Rat")] emptyFS = Except.ok emptyFS :=
  install_mods_idempotent_when_no_sources cexRunConfig [((123 : Int), "Rat")] emptyFS emptyFS
    (by decide) (by rfl)

/-- The three file names the module defines. -/
def manager_config : String := "manager.cfg"

def server_config : String := "serverDZ.cfg"

def modslist_file : String := "modslist.csv"

/-- get_steamcmd_exe from the source: interpolates the module-level tool
directory, which is always None. -/
def get_steamcmd_exe : String := pyStr initialGlobals.steamcmd_dir ++ "/steamcmd.exe"

/-- get_server_exe from the source: interpolates the module-level install
directory, which is always None. -/
def get_server_exe : String := pyStr initialGlobals.install_dir ++ "/DayZServer_x64.exe"

/-- The remediation text appended to both prerequisite errors. -/
def remediationText : String :=
  "If you do not have SteamCMD already. Download it for Windows from here: https://steamcdn-a.akamaihd.net/client/installer/steamcmd.zip. DayZ Server is only available for Windows at the time of this program being made. Once it is installed put the file path for the directory at the top of the "

/-- check_if_steamcmd_is_installed from the source. -/
def check_if_steamcmd_is_installed (fs : FS) : Except String Unit :=
  if fs.pathExists (pyStr initialGlobals.steamcmd_dir) = false then
    Except.error ("SteamCMD directory is missing: " ++ pyStr initialGlobals.steamcmd_dir ++
      ". " ++ remediationText)
  else if fs.pathExists get_steamcmd_exe = false then
    Except.error ("SteamCMD executable file is missing: " ++ get_steamcmd_exe ++ ". " ++
      remediationText)
  else Except.ok ()

/-- Opening lines of the literal default server-config template the source
emits; the template is static text the core never parses (spec section 1
treats its emission as out of scope), so its tail is elided here. -/
def default_server_cfg_text : String :=
  "hostname = \"SERVER\";  // Server name\nmaxPlayers = 60;            // Maximum amount of players\n"

/-- Opening lines of the literal default modslist template the source emits;
every line of the real template begins with a hash, as these do. -/
def default_modslist_text : String :=
  "# To add a new Steam Workshop mod:\n# Example:\n# 2950280649, DayZ-Rat\n"

/-- create_if_missing_default_server_cfg from the source: writes the template
only when no server config exists. -/
def create_if_missing_default_server_cfg (fs : FS) : FS :=
  if fs.pathExists server_config then fs
  else fs.writeFile server_config default_server_cfg_text

/-- create_if_missing_empty_modslist from the source: writes the template to
modslist.csv only when that file does not exist. -/
def create_if_missing_empty_modslist (fs : FS) : FS :=
  if fs.pathExists modslist_file then fs
  else fs.writeFile modslist_file default_modslist_text

/-- Python file iteration: the file's contents split into lines. -/
def readLines (fs : FS) (name : String) : Option (List String) :=
  (fs.lookupFile name).map (fun c => pySplit c '\n')

/-- The mod-list step exactly as main performs it: open the hard-coded path
./modslist.txt (a FileNotFoundError when absent, since main has no existence
guard) and parse its lines. -/
def parse_modslist_file (fs : FS) : Except String (List (Int × String)) :=
  match readLines fs "./modslist.txt" with
  | none => Except.error "FileNotFoundError: [Errno 2] No such file or directory: ./modslist.txt"
  | some ls => parse_modslist ls

/-- The mod-token loop of run_server: the first flag is initialised to True
and never cleared, so the first branch is taken on every iteration. -/
def run_server_mods_fold : List (Int × String) → Bool → String → String
  | [], _, mods => mods
  | e :: rest, first, mods =>
    if first then run_server_mods_fold rest first (mods ++ "@" ++ e.2)
    else run_server_mods_fold rest first (mods ++ ";@" ++ e.2)

/-- The command string run_server hands to the subprocess. -/
def run_server_command (modslist : List (Int × String)) : String :=
  if modslist.length > 0 then
    get_server_exe ++ " -config=serverDZ.cfg" ++ " \"-mod=" ++
      run_server_mods_fold modslist true "" ++ "\""
  else get_server_exe ++ " -config=serverDZ.cfg"

/-- The body of main's try block: each step in order, stopping at the first
raised exception. run_server catches its own subprocess failure, so it
contributes the built command and no error. -/
def mainBody (fs : FS) : Except String (FS × String) :=
  match readLines fs manager_config with
  | none =>
    Except.error ("FileNotFoundError: [Errno 2] No such file or directory: " ++ manager_config)
  | some cfgLines =>
    match load_manager_config cfgLines with
    | Except.error e => Except.error e
    | Except.ok _ =>
      match check_if_steamcmd_is_installed fs with
      | Except.error e => Except.error e
      | Except.ok _ =>
        match parse_modslist_file
            (create_if_missing_empty_modslist (create_if_missing_default_server_cfg fs)) with
        | Except.error e => Except.error e
        | Except.ok modslist =>
          match (if modslist.length > 0 then
              install_mods globalsRunConfig modslist
                (create_if_missing_empty_modslist (create_if_missing_default_server_cfg fs))
            else
              Except.ok
                (create_if_missing_empty_modslist (create_if_missing_default_server_cfg fs))) with
          | Except.error e => Except.error e
          | Except.ok fs2 => Except.ok (fs2, run_server_command modslist)

/-- What the process does after the try block: either the run completed, or
the except clause caught the exception and reported it. -/
inductive MainOutcome where
  | caught (e : String)
  | completed (fs : FS) (serverCmd : String)
deriving DecidableEq

/-- main from the source: the whole body sits in one try block whose except
clause catches every Exception, prints the traceback and falls through to the
final input prompt, so no error escapes. -/
def main (fs : FS) : MainOutcome :=
  match mainBody fs with
  | Except.error e => MainOutcome.caught e
  | Except.ok (fs2, cmd) => MainOutcome.completed fs2 cmd

/-- Claim C5 (code_bug evaluation): with the two-entry mapping the command
run_server builds carries the tokens of both entries in mapping order but
glued together with no semicolon between them, because the first flag is
never set to False. -/
theorem run_server_mod_tokens_unseparated :
    run_server_command [((1 : Int), "A"), ((2 : Int), "B")] =
      "None/DayZServer_x64.exe -config=serverDZ.cfg \"-mod=@A@B\"" := by rfl

/-- Claim C8: every error raised anywhere in the body of the run is caught by
main and turned into the reported caught outcome; no input makes main
propagate an error. -/
theorem main_catches_all_errors (fs : FS) (e : String)
    (h : mainBody fs = Except.error e) : main fs = MainOutcome.caught e := by
  unfold main
  rw [h]

/-- Witness for C8: on the empty filesystem the very first step (opening the
manager config) raises, and main reports that exact error. -/
theorem main_catches_all_errors_witness :
    mainBody emptyFS =
        Except.error "FileNotFoundError: [Errno 2] No such file or directory: manager.cfg" ∧
      main emptyFS =
        MainOutcome.caught "FileNotFoundError: [Errno 2] No such file or directory: manager.cfg" :=
  ⟨by rfl, main_catches_all_errors emptyFS
    "FileNotFoundError: [Errno 2] No such file or directory: manager.cfg" (by rfl)⟩

/-- The state claim C4 speaks about: a manager config is present (the spec
scenario's five lines) and no mod-list file exists anywhere. -/
def noModslistFS : FS :=
  { files := [("manager.cfg", String.intercalate "\n" scenarioConfigLines)]
    dirs := [], links := [] }

/-- Claim C4 (code_bug evaluation): an absent mod-list path is not treated as
no mods requested. The template step creates modslist.csv and still leaves
./modslist.txt absent, the parse step main actually runs raises
FileNotFoundError for ./modslist.txt instead of yielding an empty mapping,
and the run on this state ends in a caught error without ever reaching the
server launch (here it already dies at the config load). -/
theorem absent_modslist_is_error :
    (create_if_missing_empty_modslist noModslistFS).lookupFile "./modslist.txt" = none ∧
    parse_modslist_file (create_if_missing_empty_modslist noModslistFS) =
      Except.error "FileNotFoundError: [Errno 2] No such file or directory: ./modslist.txt" ∧
    main noModslistFS =
      MainOutcome.caught "The \x27steamcmd_dir\x27 configuration variable is not set." := by
  exact ⟨rfl, rfl, rfl⟩

end DayZ
